import Mathlib

/-!
Verification development for the XI-Resource-Server coordination subsystem.

The definitions below are a shallow embedding of the Go sources:
  * `cloud/internal/job/model.go`    — job status state machine, `EnsureOutputPrefix`
  * `cloud/internal/job/store.go`    — job store operations (`Create`, `UpdateStatus`, ...)
  * `cloud/internal/registry/registry.go` — agent registry
  * `cloud/internal/gateway/gateway.go`   — `handleRequestJob`, `handleJobStatus`,
    `jobStatusFromProto`
  * `agent/internal/client/client.go`     — `truncateString`, `jobRequestLoop` backoff

Modelling conventions: Go strings are Lean `String` (byte slices are `List Nat`
where byte counts matter), Go `int`/`int32` are `Int`, the SQL tables are
total maps `String → Option Job` / `String → Option AgentInfo`, the Redis FIFO
queue is a `List String` whose head is the next element RPOP returns (so
LPUSH-enqueue appends at the tail of the list).  Database backend failures are
out of scope of the pure model except where a claim is explicitly about a
failing step; there the failing step is injected through a boolean scenario.
Registry liveness (the 60 s heartbeat window) is folded into map membership:
a stale agent is simply absent.
-/

namespace XIResource

/-- Job status, from `model.go` (`StatusPending` .. `StatusLost`).
The Go type is a string; only the seven declared constants ever reach the
state machine (`IsValid` guards every entry point), so the embedding uses an
inductive type with exactly those seven values. -/
inductive Status where
  | pending
  | assigned
  | running
  | succeeded
  | failed
  | canceled
  | lost
deriving DecidableEq, Repr, Fintype

/-- `Status.CanTransitionTo` from `model.go` lines 32-46, branch for branch. -/
def Status.canTransitionTo : Status → Status → Bool
  | .pending, t => t = .assigned ∨ t = .canceled
  | .assigned, t => t = .running ∨ t = .canceled ∨ t = .lost
  | .running, t => t = .succeeded ∨ t = .failed ∨ t = .canceled ∨ t = .lost
  | .succeeded, _ => false
  | .failed, _ => false
  | .canceled, _ => false
  | .lost, _ => false

/-- `Status.IsTerminal` from `model.go` lines 49-51. -/
def Status.isTerminal (s : Status) : Bool :=
  s = .succeeded ∨ s = .failed ∨ s = .canceled ∨ s = .lost

/-- The transition table exactly as the specification states it
(§4.3): PENDING → ASSIGNED/CANCELED; ASSIGNED → RUNNING/CANCELED/LOST;
RUNNING → SUCCEEDED/FAILED/CANCELED/LOST.  This is the spec-side object the
code-side `Status.canTransitionTo` is compared against. -/
def specTransitionTable : List (Status × Status) :=
  [(.pending, .assigned), (.pending, .canceled),
   (.assigned, .running), (.assigned, .canceled), (.assigned, .lost),
   (.running, .succeeded), (.running, .failed), (.running, .canceled), (.running, .lost)]

/-- The `Job` record from `model.go` lines 54-71, restricted to the fields the
verified operations read or write (timestamps and the forward-HTTP payload
fields are carried through the store untouched by the claims and are omitted). -/
structure Job where
  jobID : String
  status : Status
  inputBucket : String
  inputKey : String
  outputBucket : String
  outputKey : String
  outputPrefix : String
  outputExtension : String
  attemptID : Int
  assignedAgentID : String
  leaseID : String
  command : String
  stdout : String
  stderr : String
  message : String
deriving DecidableEq, Repr

/-- Go's `startsWith(s, prefix)` helper from `model.go` lines 149-151:
byte-prefix test (equivalent to character-prefix on valid UTF-8 data). -/
def goStartsWith (s pfx : String) : Bool :=
  pfx.data.isPrefixOf s.data

/-- `Job.generateDefaultOutputPrefix` from `model.go` lines 135-137:
`"jobs/" + JobID + "/" + strconv.Itoa(AttemptID) + "/"`. -/
def Job.generateDefaultOutputPrefix (j : Job) : String :=
  "jobs/" ++ j.jobID ++ "/" ++ toString j.attemptID ++ "/"

/-- `Job.EnsureOutputPrefix` from `model.go` lines 108-132, branch for branch. -/
def Job.ensureOutputPrefix (j : Job) : Job :=
  let expected := j.generateDefaultOutputPrefix
  if j.outputPrefix = "" ∧ j.outputKey = "" then
    { j with outputPrefix := expected }
  else if j.outputPrefix ≠ "" then
    if j.outputPrefix ≠ expected ∧ ¬ goStartsWith j.outputPrefix expected then
      { j with outputPrefix := expected }
    else
      j
  else
    -- j.outputKey ≠ "": both sub-branches of the Go code set the prefix to
    -- `expected` and clear the key.
    { j with outputPrefix := expected, outputKey := "" }

/-- Store failure modes surfaced by `store.go` / `errors.go`. -/
inductive StoreError where
  | jobNotFound
  | invalidJobID
  | invalidStatus
  | invalidInput
  | invalidAttemptID
  | invalidTransition
  | conflict
deriving DecidableEq, Repr

/-- The `jobs` table: a map from `job_id` to the stored row. -/
def JobMap : Type := String → Option Job

/-- Point update of the jobs table. -/
def setJob (m : JobMap) (jobID : String) (j : Job) : JobMap :=
  fun x => if x = jobID then some j else m x

/-- `Job.Validate` from `model.go` lines 74-96 (the status-validity check is
vacuous in the embedding because `Status` only has the seven valid values). -/
def validateJob (j : Job) : Except StoreError Unit :=
  if j.jobID = "" then .error .invalidJobID
  else if (j.inputBucket = "" ∧ j.inputKey ≠ "") ∨ (j.inputBucket ≠ "" ∧ j.inputKey = "") then
    .error .invalidInput
  else if j.attemptID < 1 then .error .invalidAttemptID
  else .ok ()

/-- `SQLiteStore.Create` from `store.go` lines 139-197: validate, normalise the
output prefix with `EnsureOutputPrefix`, then INSERT (the primary-key
constraint on `job_id` makes the INSERT fail on a duplicate).  Returns the
updated table together with the row as persisted. -/
def createJob (m : JobMap) (j : Job) : Except StoreError (JobMap × Job) :=
  match validateJob j with
  | .error e => .error e
  | .ok () =>
    let j' := j.ensureOutputPrefix
    match m j.jobID with
    | some _ => .error .conflict
    | none => .ok (setJob m j.jobID j', j')

/-- `SQLiteStore.UpdateStatus` from `store.go` lines 340-362: read the current
row, validate the transition with `CanTransitionTo`, and only then write the
new status.  (The `newStatus.IsValid()` guard always passes for the seven
modelled values.) -/
def updateStatus (m : JobMap) (jobID : String) (newStatus : Status) :
    Except StoreError JobMap :=
  match m jobID with
  | none => .error .jobNotFound
  | some j =>
    if j.status.canTransitionTo newStatus then
      .ok (setJob m jobID { j with status := newStatus })
    else
      .error .invalidTransition

/-- `SQLiteStore.UpdateStdoutStderr` from `store.go` lines 398-405: a plain
UPDATE of the two columns (no validation; a missing row updates nothing). -/
def updateStdoutStderr (m : JobMap) (jobID stdout stderr : String) : JobMap :=
  fun x => if x = jobID then (m jobID).map (fun j => { j with stdout := stdout, stderr := stderr })
           else m x

/-- `SQLiteStore.UpdateAssignment` from `store.go` lines 365-372 (the unused
`lease_deadline` column is omitted). -/
def updateAssignment (m : JobMap) (jobID agentID leaseID : String) : JobMap :=
  fun x => if x = jobID then (m jobID).map (fun j => { j with assignedAgentID := agentID, leaseID := leaseID })
           else m x

/-- `SQLiteStore.UpdateOutput` from `store.go` lines 388-395. -/
def updateOutput (m : JobMap) (jobID outputKey outputPfx : String) : JobMap :=
  fun x => if x = jobID then (m jobID).map (fun j => { j with outputKey := outputKey, outputPrefix := outputPfx })
           else m x

/-- `SQLiteStore.UpdateAttemptID` from `store.go` lines 375-385 (the gateway
only ever calls it with `1`, which passes the `>= 1` validation). -/
def updateAttemptID (m : JobMap) (jobID : String) (n : Int) : JobMap :=
  fun x => if x = jobID then (m jobID).map (fun j => { j with attemptID := n }) else m x

end XIResource

namespace XIResource

/-- Claim C1 transition-table lemma: the code's `CanTransitionTo` recognises
exactly the edges of the specification's table. -/
theorem canTransitionTo_iff_mem_table (s t : Status) :
    s.canTransitionTo t = true ↔ (s, t) ∈ specTransitionTable := by
  revert s t; decide

/-- C1: for a stored job with status `s`, `UpdateStatus(job_id, t)` succeeds
and rewrites the stored status to `t` exactly when the edge `s → t` is in the
spec's transition table; on any other pair it fails with the
invalid-transition error (so the stored row, which the function does not
write, is unchanged), and in particular from a terminal status every
`UpdateStatus` call fails. -/
theorem updateStatus_follows_transition_table
    (m : JobMap) (jobID : String) (j : Job) (t : Status)
    (h : m jobID = some j) :
    (((j.status, t) ∈ specTransitionTable →
        updateStatus m jobID t = .ok (setJob m jobID { j with status := t })) ∧
     ((j.status, t) ∉ specTransitionTable →
        updateStatus m jobID t = .error .invalidTransition)) ∧
    (j.status.isTerminal = true →
        updateStatus m jobID t = .error .invalidTransition) := by
  have hterm : j.status.isTerminal = true → (j.status, t) ∉ specTransitionTable := by
    revert t; cases j.status <;> decide
  refine ⟨⟨?_, ?_⟩, ?_⟩
  · intro hmem
    have hc : j.status.canTransitionTo t = true := (canTransitionTo_iff_mem_table _ _).mpr hmem
    simp [updateStatus, h, hc]
  · intro hmem
    have hc : ¬ j.status.canTransitionTo t = true :=
      fun hc => hmem ((canTransitionTo_iff_mem_table _ _).mp hc)
    simp [updateStatus, h, hc]
  · intro hT
    have hc : ¬ j.status.canTransitionTo t = true :=
      fun hc => hterm hT ((canTransitionTo_iff_mem_table _ _).mp hc)
    simp [updateStatus, h, hc]

/-- A concrete PENDING job used by several witnesses. -/
def jobP : Job :=
  { jobID := "J1", status := .pending, inputBucket := "b", inputKey := "in/a.jpg",
    outputBucket := "b", outputKey := "", outputPrefix := "", outputExtension := "bin",
    attemptID := 1, assignedAgentID := "", leaseID := "", command := "echo hi",
    stdout := "", stderr := "", message := "" }

/-- A one-row jobs table holding `jobP` under `"J1"`. -/
def mapP : JobMap := fun x => if x = "J1" then some jobP else none

/-- Witness for C1 at the concrete row `jobP` (PENDING) and target ASSIGNED. -/
theorem updateStatus_follows_transition_table_witness :
    ((jobP.status, Status.assigned) ∈ specTransitionTable →
        updateStatus mapP "J1" .assigned = .ok (setJob mapP "J1" { jobP with status := .assigned })) ∧
    ((jobP.status, Status.assigned) ∉ specTransitionTable →
        updateStatus mapP "J1" .assigned = .error .invalidTransition) :=
  (updateStatus_follows_transition_table mapP "J1" jobP .assigned (by rfl)).1

/-- The empty jobs table. -/
def emptyJobMap : JobMap := fun _ => none

/-- A submitted job whose `output_prefix` strictly extends the canonical
`jobs/J/1/` — `EnsureOutputPrefix` keeps it, so `Create` persists a prefix
different from the canonical string. -/
def jobPfxEx : Job :=
  { jobID := "J", status := .pending, inputBucket := "", inputKey := "",
    outputBucket := "b", outputKey := "", outputPrefix := "jobs/J/1/extra/",
    outputExtension := "", attemptID := 1, assignedAgentID := "", leaseID := "",
    command := "", stdout := "", stderr := "", message := "" }

/-- C3 counterexample: `Create` accepts `jobPfxEx` and persists its submitted
`output_prefix` `"jobs/J/1/extra/"` unchanged, which is not equal to the
canonical `"jobs/" + job_id + "/" + attempt_id + "/"` — so a non-canonical
submitted value is not always overwritten. -/
theorem createJob_prefix_counterexample :
    (createJob emptyJobMap jobPfxEx).toOption.map (fun p => p.2.outputPrefix) =
      some "jobs/J/1/extra/" ∧
    "jobs/J/1/extra/" ≠
      "jobs/" ++ jobPfxEx.jobID ++ "/" ++ toString jobPfxEx.attemptID ++ "/" := by
  constructor
  · rfl
  · decide

/-- C3, amended: for every job accepted by `Create`, the persisted
`output_prefix` *starts with* the canonical `"jobs/{job_id}/{attempt_id}/"`;
a submitted prefix that does not start with the canonical string (in
particular an empty one, or a job submitted with only an `output_key`) is
overwritten with exactly the canonical string, while a submitted prefix that
extends the canonical string is kept.  The persisted row is stored under
`job_id`. -/
theorem createJob_prefix_canonical
    (m : JobMap) (j : Job) (m' : JobMap) (j' : Job)
    (h : createJob m j = .ok (m', j')) :
    goStartsWith j'.outputPrefix j.generateDefaultOutputPrefix = true ∧
    (goStartsWith j.outputPrefix j.generateDefaultOutputPrefix = false →
      j'.outputPrefix = j.generateDefaultOutputPrefix) ∧
    m' j.jobID = some j' := by
  have hrefl : ∀ s : String, goStartsWith s s = true := by
    intro s; simp [goStartsWith]
  have hj' : j' = j.ensureOutputPrefix ∧ m' = setJob m j.jobID j' := by
    unfold createJob at h
    cases hv : validateJob j with
    | error e => rw [hv] at h; exact absurd h (by simp)
    | ok u =>
      rw [hv] at h
      cases hm : m j.jobID with
      | some x => rw [hm] at h; exact absurd h (by simp)
      | none =>
        rw [hm] at h
        simp only [Except.ok.injEq, Prod.mk.injEq] at h
        exact ⟨h.2.symm, by rw [← h.1, ← h.2]⟩
  obtain ⟨hj, hm⟩ := hj'
  refine ⟨?_, ?_, by rw [hm, setJob]; simp⟩
  · rw [hj]; unfold Job.ensureOutputPrefix
    by_cases h1 : j.outputPrefix = "" ∧ j.outputKey = ""
    · simp only [h1, if_pos, if_true]; exact hrefl _
    · simp only [if_neg h1]
      by_cases h2 : j.outputPrefix ≠ ""
      · simp only [if_pos h2]
        by_cases h3 : j.outputPrefix ≠ j.generateDefaultOutputPrefix ∧
            ¬ goStartsWith j.outputPrefix j.generateDefaultOutputPrefix
        · simp only [if_pos h3]; exact hrefl _
        · simp only [if_neg h3]
          rcases not_and_or.mp h3 with h4 | h4
          · have : j.outputPrefix = j.generateDefaultOutputPrefix := not_not.mp h4
            rw [this]; exact hrefl _
          · have : goStartsWith j.outputPrefix j.generateDefaultOutputPrefix = true := by
              by_contra hc
              exact h4 (by simp [Bool.not_eq_true] at hc ⊢; exact hc)
            exact this
      · simp only [if_neg h2]; exact hrefl _
  · intro hns
    rw [hj]; unfold Job.ensureOutputPrefix
    by_cases h1 : j.outputPrefix = "" ∧ j.outputKey = ""
    · simp [h1]
    · simp only [if_neg h1]
      by_cases h2 : j.outputPrefix ≠ ""
      · simp only [if_pos h2]
        have h3 : j.outputPrefix ≠ j.generateDefaultOutputPrefix ∧
            ¬ goStartsWith j.outputPrefix j.generateDefaultOutputPrefix := by
          constructor
          · intro hEq; rw [hEq] at hns; rw [hrefl _] at hns; exact Bool.noConfusion hns
          · rw [hns]; exact Bool.false_ne_true
        simp [h3]
      · simp [h2]

/-- Witness for the amended C3 at the concrete submission `jobPfxEx`
(extending prefix kept) — the hypothesis `createJob … = .ok …` is discharged
by evaluation. -/
theorem createJob_prefix_canonical_witness :
    goStartsWith jobPfxEx.outputPrefix jobPfxEx.generateDefaultOutputPrefix = true ∧
    (goStartsWith jobPfxEx.outputPrefix jobPfxEx.generateDefaultOutputPrefix = false →
      jobPfxEx.outputPrefix = jobPfxEx.generateDefaultOutputPrefix) ∧
    setJob emptyJobMap "J" jobPfxEx jobPfxEx.jobID = some jobPfxEx :=
  createJob_prefix_canonical emptyJobMap jobPfxEx (setJob emptyJobMap "J" jobPfxEx) jobPfxEx
    (by rfl)

/-! ### Agent-side stdout/stderr truncation (`client.go`) -/

/-- The literal marker `"... (truncated)"` appended by `truncateString`,
as its 15 ASCII bytes. -/
def truncationMarker : List Nat :=
  [46, 46, 46, 32, 40, 116, 114, 117, 110, 99, 97, 116, 101, 100, 41]

/-- `truncateString` from `client.go` lines 1737-1742, on byte strings
(Go `len` and slicing are byte-based): if `len(s) <= maxLen` return `s`,
else return `s[:maxLen] + "... (truncated)"`. -/
def truncateString (s : List Nat) (maxLen : Nat) : List Nat :=
  if s.length ≤ maxLen then s else s.take maxLen ++ truncationMarker

/-- C8 counterexample: `executeCommand` truncates with `maxLen = 10000`
(`truncateString(stdoutStr, 10000)`), so a sanitized stdout of 10100 bytes —
which is at most 10 KiB = 10240 bytes and should be reported unmodified per
the claim — is nevertheless modified. -/
theorem truncateString_10KiB_counterexample :
    (List.replicate 10100 97).length ≤ 10240 ∧
    truncateString (List.replicate 10100 97) 10000 ≠ List.replicate 10100 97 := by
  constructor
  · simp only [List.length_replicate]; omega
  · intro hEq
    have hlen : (truncateString (List.replicate 10100 97) 10000).length = 10100 := by
      rw [hEq]; simp only [List.length_replicate]
    rw [truncateString, if_neg (by simp only [List.length_replicate]; omega)] at hlen
    simp only [List.length_append, List.length_take, List.length_replicate] at hlen
    have hm : truncationMarker.length = 15 := rfl
    omega

/-- C8, amended: the truncation threshold is 10000 bytes (the code's `10000`,
not 10 KiB = 10240): a string of at most 10000 bytes is reported unmodified,
and a longer one is cut to its first 10000 bytes with the literal marker
`"... (truncated)"` appended — the marker being the only modification. -/
theorem truncateString_threshold_10000 (s : List Nat) :
    (s.length ≤ 10000 → truncateString s 10000 = s) ∧
    (10000 < s.length → truncateString s 10000 = s.take 10000 ++ truncationMarker) := by
  constructor
  · intro h; simp [truncateString, h]
  · intro h; rw [truncateString, if_neg (by omega)]

/-- Witness for the amended C8 at a 3-byte and a 10001-byte string. -/
theorem truncateString_threshold_10000_witness :
    truncateString (List.replicate 3 97) 10000 = List.replicate 3 97 ∧
    truncateString (List.replicate 10001 97) 10000 =
      List.take 10000 (List.replicate 10001 97) ++ truncationMarker :=
  ⟨(truncateString_threshold_10000 _).1 (by simp only [List.length_replicate]; omega),
   (truncateString_threshold_10000 _).2 (by simp only [List.length_replicate]; omega)⟩

/-! ### Agent registry (`registry.go`) and gateway state (`gateway.go`) -/

/-- `registry.AgentInfo`, restricted to the capacity facts the gateway
handlers read (`Paused`, `RunningJobs`, `MaxConcurrency`); the heartbeat and
connection timestamps only feed the liveness filter, which the embedding
folds into map membership. -/
structure AgentInfo where
  paused : Bool
  runningJobs : Int
  maxConcurrency : Int
deriving DecidableEq, Repr

/-- The registry: `GetAgent` returns `some` exactly for registered, live
agents. -/
def AgentMap : Type := String → Option AgentInfo

/-- `Registry.UpdateHeartbeat` from `registry.go` lines 54-63: overwrite
`paused` and `runningJobs` if the agent is registered, otherwise do nothing. -/
def updateHeartbeat (m : AgentMap) (agentID : String) (paused : Bool) (runningJobs : Int) :
    AgentMap :=
  fun x => if x = agentID
           then (m agentID).map (fun a => { a with paused := paused, runningJobs := runningJobs })
           else m x

/-- The "Fix 5" capacity-release fragment repeated in `handleJobStatus`
(`gateway.go` e.g. lines 563-566): re-fetch the agent and, when it is
registered and `RunningJobs > 0`, write back `RunningJobs - 1` through
`UpdateHeartbeat`. -/
def decrementRunning (m : AgentMap) (agentID : String) : AgentMap :=
  match m agentID with
  | some a => if a.runningJobs > 0 then updateHeartbeat m agentID a.paused (a.runningJobs - 1) else m
  | none => m

/-- The gateway's shared mutable state: the job store and the registry. -/
structure GState where
  jobs : JobMap
  agents : AgentMap

/-- The fields of a `control.JobStatus` frame (`status` is the raw protobuf
`JobStatusEnum` tag, an `int32`). -/
structure JobStatusMsg where
  jobId : String
  attemptId : Int
  status : Int
  message : String
  outputKey : String
  stdout : String
  stderr : String
deriving DecidableEq, Repr

/-- `jobStatusFromProto` from `gateway.go` lines 629-649: tags 1-6 map to
ASSIGNED..LOST; the UNKNOWN tag (0) and every other value fall through to
PENDING. -/
def jobStatusFromProto (tag : Int) : Status :=
  if tag = 1 then .assigned
  else if tag = 2 then .running
  else if tag = 3 then .succeeded
  else if tag = 4 then .failed
  else if tag = 5 then .canceled
  else if tag = 6 then .lost
  else .pending

/-- The `switch newStatus` body of `Gateway.handleJobStatus` (`gateway.go`
lines 485-625), reached once every guard has passed; `j` is the row the
handler fetched, `agentID` the (validated) sender.  Store-backend failures of
`UpdateStatus` cannot occur in the pure model beyond the transition
validation it performs; `UpdateStdoutStderr` is an unvalidated UPDATE and
always succeeds. -/
def handleJobStatusSwitch (g : GState) (agentID : String) (r : JobStatusMsg) (j : Job) :
    GState :=
  match jobStatusFromProto r.status with
  | .running =>
    let jobs1 := if r.stdout ≠ "" ∨ r.stderr ≠ ""
                 then updateStdoutStderr g.jobs r.jobId r.stdout r.stderr
                 else g.jobs
    match updateStatus jobs1 r.jobId .running with
    | .ok jobs2 => { g with jobs := jobs2 }
    | .error _ => { g with jobs := jobs1 }
  | .succeeded =>
    let jobs1 := updateStdoutStderr g.jobs r.jobId r.stdout r.stderr
    if r.outputKey ≠ "" ∧ r.outputKey ≠ j.outputKey then
      -- covers both Go sub-branches (store key empty / reported key mismatch):
      -- mark FAILED without touching output_key, then release capacity
      match updateStatus jobs1 r.jobId .failed with
      | .ok jobs2 => { jobs := jobs2, agents := decrementRunning g.agents agentID }
      | .error _ => { g with jobs := jobs1 }
    else
      match updateStatus jobs1 r.jobId .succeeded with
      | .ok jobs2 => { jobs := jobs2, agents := decrementRunning g.agents agentID }
      | .error _ => { g with jobs := jobs1 }
  | .failed =>
    let jobs1 := updateStdoutStderr g.jobs r.jobId r.stdout r.stderr
    match updateStatus jobs1 r.jobId .failed with
    | .ok jobs2 => { jobs := jobs2, agents := decrementRunning g.agents agentID }
    | .error _ => { g with jobs := jobs1 }
  | .canceled =>
    if ¬ j.status.canTransitionTo .canceled then g
    else
      match updateStatus g.jobs r.jobId .canceled with
      | .ok jobs2 => { jobs := jobs2, agents := decrementRunning g.agents agentID }
      | .error _ => g
  | .lost =>
    if ¬ j.status.canTransitionTo .lost then g
    else
      match updateStatus g.jobs r.jobId .lost with
      | .ok jobs2 => { jobs := jobs2, agents := decrementRunning g.agents agentID }
      | .error _ => g
  | s =>
    -- Go's `default:` branch: ASSIGNED and the PENDING fallback
    if ¬ j.status.canTransitionTo s then g
    else
      match updateStatus g.jobs r.jobId s with
      | .ok jobs2 => { g with jobs := jobs2 }
      | .error _ => g

/-- `Gateway.handleJobStatus` from `gateway.go` lines 428-626, guard for
guard.  `connAgentID` is the id bound to the connection, `envAgentID` the
envelope's `agent_id`. -/
def handleJobStatus (g : GState) (connAgentID envAgentID : String) (r : JobStatusMsg) :
    GState :=
  if envAgentID = "" then g
  else if connAgentID ≠ envAgentID then g
  else if r.jobId = "" then g
  else
    match g.jobs r.jobId with
    | none => g
    | some j =>
      if j.assignedAgentID ≠ envAgentID then g
      else if r.attemptId ≠ j.attemptID then g
      else if j.status.isTerminal then g
      else handleJobStatusSwitch g envAgentID r j

/-- When every guard passes, `handleJobStatus` runs the status switch. -/
theorem handleJobStatus_guards_pass
    (g : GState) (a : String) (r : JobStatusMsg) (j : Job)
    (ha : a ≠ "") (hid : r.jobId ≠ "") (hj : g.jobs r.jobId = some j)
    (hown : j.assignedAgentID = a) (hatt : r.attemptId = j.attemptID)
    (hnt : j.status.isTerminal = false) :
    handleJobStatus g a a r = handleJobStatusSwitch g a r j := by
  unfold handleJobStatus
  simp [ha, hid, hj, hown, hatt, hnt]

/-- `UpdateStatus` on a present row with a legal transition. -/
theorem updateStatus_some (m : JobMap) (jobID : String) (j : Job) (t : Status)
    (h : m jobID = some j) (hc : j.status.canTransitionTo t = true) :
    updateStatus m jobID t = .ok (setJob m jobID { j with status := t }) := by
  simp [updateStatus, h, hc]

/-- `UpdateStatus` on a present row with an illegal transition. -/
theorem updateStatus_invalid (m : JobMap) (jobID : String) (j : Job) (t : Status)
    (h : m jobID = some j) (hc : j.status.canTransitionTo t = false) :
    updateStatus m jobID t = .error .invalidTransition := by
  simp [updateStatus, h, hc]

/-- Reading back the row `setJob` just wrote. -/
theorem setJob_self (m : JobMap) (jobID : String) (j : Job) :
    setJob m jobID j jobID = some j := by
  simp [setJob]

/-- `UpdateStdoutStderr` rewrites exactly the two columns of the row. -/
theorem updateStdoutStderr_self (m : JobMap) (jobID so se : String) (j : Job)
    (h : m jobID = some j) :
    updateStdoutStderr m jobID so se jobID = some { j with stdout := so, stderr := se } := by
  simp [updateStdoutStderr, h]

/-- The capacity-release fragment on a registered agent with positive
`running_jobs`. -/
theorem decrementRunning_self (m : AgentMap) (a : String) (ai : AgentInfo)
    (h : m a = some ai) (hpos : 0 < ai.runningJobs) :
    decrementRunning m a a = some { ai with runningJobs := ai.runningJobs - 1 } := by
  simp [decrementRunning, h, hpos, updateHeartbeat]

/-- Terminal-state protection: whenever the stored row is terminal, the
handler returns before performing any write — whatever the report says. -/
theorem handleJobStatus_terminal_noop
    (g : GState) (c e : String) (r : JobStatusMsg) (j : Job)
    (h : g.jobs r.jobId = some j) (hT : j.status.isTerminal = true) :
    handleJobStatus g c e r = g := by
  unfold handleJobStatus
  simp [h, hT]

/-- C6: delivering the same terminal `JobStatus` a second time, after a first
delivery that left the job in a terminal state, changes neither the Job Store
nor the registry: the terminal-state check discards the duplicate before any
write or capacity decrement. -/
theorem duplicate_terminal_jobstatus_noop
    (g : GState) (c e : String) (r : JobStatusMsg) (j' : Job)
    (h : (handleJobStatus g c e r).jobs r.jobId = some j')
    (hT : j'.status.isTerminal = true) :
    handleJobStatus (handleJobStatus g c e r) c e r = handleJobStatus g c e r :=
  handleJobStatus_terminal_noop _ c e r j' h hT

/-- A RUNNING job assigned to agent `A6`, used by the C6 witness. -/
def jobC6 : Job :=
  { jobID := "J6", status := .running, inputBucket := "", inputKey := "",
    outputBucket := "b", outputKey := "jobs/J6/1/output.bin", outputPrefix := "jobs/J6/1/",
    outputExtension := "bin", attemptID := 1, assignedAgentID := "A6", leaseID := "L6",
    command := "c", stdout := "", stderr := "", message := "" }

/-- Gateway state for the C6 witness. -/
def gC6 : GState :=
  { jobs := fun x => if x = "J6" then some jobC6 else none,
    agents := fun x => if x = "A6"
                       then some { paused := false, runningJobs := 1, maxConcurrency := 1 }
                       else none }

/-- The terminal report of the C6 witness: SUCCEEDED (tag 3) with the
matching output key. -/
def rC6 : JobStatusMsg :=
  { jobId := "J6", attemptId := 1, status := 3, message := "",
    outputKey := "jobs/J6/1/output.bin", stdout := "done", stderr := "" }

/-- Witness for C6: the first delivery moves `J6` to SUCCEEDED; the duplicate
delivery is a no-op. -/
theorem duplicate_terminal_jobstatus_noop_witness :
    handleJobStatus (handleJobStatus gC6 "A6" "A6" rC6) "A6" "A6" rC6 =
      handleJobStatus gC6 "A6" "A6" rC6 :=
  duplicate_terminal_jobstatus_noop gC6 "A6" "A6" rC6
    { jobC6 with status := .succeeded, stdout := "done", stderr := "" }
    (by decide) (by decide)

/-- C10: an incoming `JobStatus` whose tag is none of the six recognised
values (including the UNKNOWN tag 0 and any future tag) is mapped to PENDING
by `jobStatusFromProto`, and — since no status can transition to PENDING —
the handler returns without modifying the Job Store or the registry. -/
theorem unrecognized_status_noop (tag : Int)
    (h1 : tag ≠ 1) (h2 : tag ≠ 2) (h3 : tag ≠ 3)
    (h4 : tag ≠ 4) (h5 : tag ≠ 5) (h6 : tag ≠ 6) :
    jobStatusFromProto tag = .pending ∧
    ∀ (g : GState) (c e : String) (r : JobStatusMsg), r.status = tag →
      handleJobStatus g c e r = g := by
  have hp : jobStatusFromProto tag = .pending := by
    simp [jobStatusFromProto, h1, h2, h3, h4, h5, h6]
  refine ⟨hp, ?_⟩
  intro g c e r hr
  have hnp : ∀ s : Status, s.canTransitionTo .pending = false := by decide
  have hsw : ∀ j : Job, handleJobStatusSwitch g e r j = g := by
    intro j
    unfold handleJobStatusSwitch
    rw [hr, hp]
    simp [hnp]
  unfold handleJobStatus
  cases hgj : g.jobs r.jobId with
  | none => simp [hgj]
  | some j => simp [hgj, hsw]

/-- Gateway state for the C10 witness: a RUNNING job assigned to `A10`. -/
def gC10 : GState :=
  { jobs := fun x => if x = "J10"
                     then some { jobC6 with jobID := "J10", assignedAgentID := "A10" }
                     else none,
    agents := fun x => if x = "A10"
                       then some { paused := false, runningJobs := 1, maxConcurrency := 2 }
                       else none }

/-- A report with the unrecognised tag 99 for the C10 witness. -/
def rC10 : JobStatusMsg :=
  { jobId := "J10", attemptId := 1, status := 99, message := "",
    outputKey := "", stdout := "x", stderr := "" }

/-- Witness for C10 at tag 99 on a concrete state. -/
theorem unrecognized_status_noop_witness :
    jobStatusFromProto 99 = .pending ∧
    handleJobStatus gC10 "A10" "A10" rC10 = gC10 :=
  ⟨(unrecognized_status_noop 99 (by decide) (by decide) (by decide)
      (by decide) (by decide) (by decide)).1,
   (unrecognized_status_noop 99 (by decide) (by decide) (by decide)
      (by decide) (by decide) (by decide)).2 gC10 "A10" "A10" rC10 rfl⟩

/-- An ASSIGNED job whose agent reports SUCCEEDED with a mismatched
output key — the C4 counterexample input. -/
def jobC4 : Job :=
  { jobID := "J4", status := .assigned, inputBucket := "", inputKey := "",
    outputBucket := "b", outputKey := "jobs/J4/1/output.bin", outputPrefix := "jobs/J4/1/",
    outputExtension := "bin", attemptID := 1, assignedAgentID := "A4", leaseID := "L4",
    command := "c", stdout := "", stderr := "", message := "" }

/-- Gateway state for the C4 counterexample. -/
def gC4 : GState :=
  { jobs := fun x => if x = "J4" then some jobC4 else none,
    agents := fun x => if x = "A4"
                       then some { paused := false, runningJobs := 1, maxConcurrency := 1 }
                       else none }

/-- The C4 counterexample report: SUCCEEDED with a non-empty output key that
differs from the stored one. -/
def rC4 : JobStatusMsg :=
  { jobId := "J4", attemptId := 1, status := 3, message := "",
    outputKey := "jobs/J4/1/wrong.bin", stdout := "", stderr := "" }

/-- C4 counterexample: on the non-terminal (ASSIGNED) job `J4`, the
mismatched SUCCEEDED report does *not* set the status to FAILED — the
ASSIGNED → FAILED write is rejected by transition validation, the job stays
ASSIGNED and the sender's `running_jobs` is *not* decremented. -/
theorem jobstatus_succeeded_mismatch_counterexample :
    ((handleJobStatus gC4 "A4" "A4" rC4).jobs "J4").map Job.status = some .assigned ∧
    (some Status.assigned ≠ some Status.failed) ∧
    (handleJobStatus gC4 "A4" "A4" rC4).agents "A4" =
      some { paused := false, runningJobs := 1, maxConcurrency := 1 } := by
  refine ⟨by decide, by decide, by decide⟩

/-- C4, amended: the mismatch rule holds once the job is RUNNING (only then
are the FAILED/SUCCEEDED transitions legal) and the sender is a registered
agent with positive `running_jobs`: a SUCCEEDED report from the job's
assigned agent with matching attempt_id whose non-empty reported output_key
differs from the stored one marks the job FAILED, leaves the stored
output_key unchanged, and decrements the sender's running_jobs; a report
whose output_key is empty or exactly equal marks the job SUCCEEDED (also
decrementing running_jobs).  In both cases stdout/stderr are persisted. -/
theorem jobstatus_succeeded_running_behavior
    (g : GState) (a : String) (r : JobStatusMsg) (j : Job) (ai : AgentInfo)
    (ha : a ≠ "") (hid : r.jobId ≠ "")
    (hj : g.jobs r.jobId = some j)
    (hown : j.assignedAgentID = a)
    (hatt : r.attemptId = j.attemptID)
    (hrun : j.status = .running)
    (htag : r.status = 3)
    (hag : g.agents a = some ai)
    (hpos : 0 < ai.runningJobs) :
    (r.outputKey ≠ "" ∧ r.outputKey ≠ j.outputKey →
      (handleJobStatus g a a r).jobs r.jobId =
        some { j with status := .failed, stdout := r.stdout, stderr := r.stderr } ∧
      (handleJobStatus g a a r).agents a =
        some { ai with runningJobs := ai.runningJobs - 1 }) ∧
    (r.outputKey = "" ∨ r.outputKey = j.outputKey →
      (handleJobStatus g a a r).jobs r.jobId =
        some { j with status := .succeeded, stdout := r.stdout, stderr := r.stderr } ∧
      (handleJobStatus g a a r).agents a =
        some { ai with runningJobs := ai.runningJobs - 1 }) := by
  have hnt : j.status.isTerminal = false := by rw [hrun]; rfl
  have hguards := handleJobStatus_guards_pass g a r j ha hid hj hown hatt hnt
  have hjobs1 := updateStdoutStderr_self g.jobs r.jobId r.stdout r.stderr j hj
  have hsw : jobStatusFromProto r.status = .succeeded := by rw [htag]; rfl
  have hstat : ({ j with stdout := r.stdout, stderr := r.stderr } : Job).status = j.status := rfl
  have hdec := decrementRunning_self g.agents a ai hag hpos
  rw [hguards]
  unfold handleJobStatusSwitch
  rw [hsw]
  constructor
  · rintro ⟨hk1, hk2⟩
    have hupd := updateStatus_some _ r.jobId _ .failed hjobs1
      (by rw [hstat, hrun]; decide)
    simp [if_pos (And.intro hk1 hk2), hupd, setJob_self, hdec]
  · intro hk
    have hnk : ¬ (r.outputKey ≠ "" ∧ r.outputKey ≠ j.outputKey) := by
      rcases hk with hk | hk <;> simp [hk]
    have hupd := updateStatus_some _ r.jobId _ .succeeded hjobs1
      (by rw [hstat, hrun]; decide)
    simp [if_neg hnk, hupd, setJob_self, hdec]

/-- A RUNNING job for the C4 witness. -/
def jobC4w : Job :=
  { jobC4 with
    jobID := "J4w"
    status := .running
    assignedAgentID := "A4w"
    outputKey := "jobs/J4w/1/output.bin" }

/-- Gateway state for the C4 witness. -/
def gC4w : GState :=
  { jobs := fun x => if x = "J4w" then some jobC4w else none,
    agents := fun x => if x = "A4w"
                       then some { paused := false, runningJobs := 1, maxConcurrency := 1 }
                       else none }

/-- Mismatched SUCCEEDED report for the C4 witness. -/
def rC4w : JobStatusMsg :=
  { jobId := "J4w", attemptId := 1, status := 3, message := "",
    outputKey := "jobs/J4w/1/wrong.bin", stdout := "so", stderr := "se" }

/-- Witness for the amended C4: on the RUNNING job `J4w` the mismatch marks
the job FAILED (stored output_key intact) and decrements `running_jobs`. -/
theorem jobstatus_succeeded_running_behavior_witness :
    (handleJobStatus gC4w "A4w" "A4w" rC4w).jobs "J4w" =
      some { jobC4w with status := .failed, stdout := "so", stderr := "se" } ∧
    (handleJobStatus gC4w "A4w" "A4w" rC4w).agents "A4w" =
      some { paused := false, runningJobs := 0, maxConcurrency := 1 } :=
  (jobstatus_succeeded_running_behavior gC4w "A4w" rC4w jobC4w
      { paused := false, runningJobs := 1, maxConcurrency := 1 }
      (by decide) (by decide) rfl rfl rfl rfl rfl rfl (by decide)).1
    ⟨by decide, by decide⟩

/-- An ASSIGNED job for the C5 counterexample. -/
def jobC5 : Job :=
  { jobID := "J5", status := .assigned, inputBucket := "", inputKey := "",
    outputBucket := "b", outputKey := "jobs/J5/1/output.bin", outputPrefix := "jobs/J5/1/",
    outputExtension := "bin", attemptID := 1, assignedAgentID := "A5", leaseID := "L5",
    command := "c", stdout := "", stderr := "", message := "" }

/-- Gateway state for the C5 counterexample. -/
def gC5 : GState :=
  { jobs := fun x => if x = "J5" then some jobC5 else none,
    agents := fun x => if x = "A5"
                       then some { paused := false, runningJobs := 1, maxConcurrency := 1 }
                       else none }

/-- The C5 counterexample report: SUCCEEDED (not reachable from ASSIGNED)
with a non-empty stdout. -/
def rC5 : JobStatusMsg :=
  { jobId := "J5", attemptId := 1, status := 3, message := "",
    outputKey := "", stdout := "x", stderr := "" }

/-- C5 counterexample: the SUCCEEDED report on the still-ASSIGNED job `J5`
is a conflicting report (SUCCEEDED is not reachable from ASSIGNED), yet the
handler does *not* leave the record unchanged: the job's stored stdout
becomes `"x"` (it was `""`), because stdout/stderr are persisted before the
transition check. -/
theorem conflicting_report_not_ignored_counterexample :
    Status.assigned.canTransitionTo (jobStatusFromProto rC5.status) = false ∧
    ((handleJobStatus gC5 "A5" "A5" rC5).jobs "J5").map Job.stdout = some "x" ∧
    (gC5.jobs "J5").map Job.stdout = some "" := by
  refine ⟨by decide, by decide, by decide⟩

/-- C5, amended: a `JobStatus` report (from the assigned agent, matching
attempt_id, job not terminal) whose reported status is not reachable from the
current one never changes the job's status, output fields, message or
assignment, never touches the registry, and never touches any other job; the
record is, however, not always left entirely unchanged: for SUCCEEDED and
FAILED reports stdout/stderr are persisted before the transition check, and
for RUNNING reports they are persisted when non-empty; for ASSIGNED,
PENDING-mapped, CANCELED and LOST reports (and RUNNING reports with empty
stdout/stderr) the record is entirely unchanged. -/
theorem conflicting_report_behavior
    (g : GState) (a : String) (r : JobStatusMsg) (j : Job)
    (ha : a ≠ "") (hid : r.jobId ≠ "")
    (hj : g.jobs r.jobId = some j)
    (hown : j.assignedAgentID = a)
    (hatt : r.attemptId = j.attemptID)
    (hnt : j.status.isTerminal = false)
    (hinv : j.status.canTransitionTo (jobStatusFromProto r.status) = false) :
    (handleJobStatus g a a r).agents = g.agents ∧
    (∀ x, x ≠ r.jobId → (handleJobStatus g a a r).jobs x = g.jobs x) ∧
    ((handleJobStatus g a a r).jobs r.jobId).map Job.status = some j.status ∧
    ((handleJobStatus g a a r).jobs r.jobId).map Job.outputKey = some j.outputKey ∧
    ((handleJobStatus g a a r).jobs r.jobId).map Job.message = some j.message ∧
    ((jobStatusFromProto r.status = .succeeded ∨ jobStatusFromProto r.status = .failed) →
      (handleJobStatus g a a r).jobs r.jobId =
        some { j with stdout := r.stdout, stderr := r.stderr }) ∧
    ((jobStatusFromProto r.status = .running ∧ ¬ (r.stdout = "" ∧ r.stderr = "")) →
      (handleJobStatus g a a r).jobs r.jobId =
        some { j with stdout := r.stdout, stderr := r.stderr }) ∧
    ((jobStatusFromProto r.status = .running ∧ (r.stdout = "" ∧ r.stderr = "")) →
      handleJobStatus g a a r = g) ∧
    ((jobStatusFromProto r.status = .assigned ∨ jobStatusFromProto r.status = .pending ∨
      jobStatusFromProto r.status = .canceled ∨ jobStatusFromProto r.status = .lost) →
      handleJobStatus g a a r = g) := by
  have hguards := handleJobStatus_guards_pass g a r j ha hid hj hown hatt hnt
  have hjobs1 := updateStdoutStderr_self g.jobs r.jobId r.stdout r.stderr j hj
  have hstat : ({ j with stdout := r.stdout, stderr := r.stderr } : Job).status = j.status := rfl
  have hcase :
      (handleJobStatus g a a r = g ∧
        (jobStatusFromProto r.status = .assigned ∨ jobStatusFromProto r.status = .pending ∨
         jobStatusFromProto r.status = .canceled ∨ jobStatusFromProto r.status = .lost ∨
         (jobStatusFromProto r.status = .running ∧ r.stdout = "" ∧ r.stderr = ""))) ∨
      (handleJobStatus g a a r =
          { g with jobs := updateStdoutStderr g.jobs r.jobId r.stdout r.stderr } ∧
        (jobStatusFromProto r.status = .succeeded ∨ jobStatusFromProto r.status = .failed ∨
         (jobStatusFromProto r.status = .running ∧ ¬ (r.stdout = "" ∧ r.stderr = "")))) := by
    rw [hguards]
    cases hsv : jobStatusFromProto r.status with
    | pending =>
      rw [hsv] at hinv
      refine Or.inl ⟨?_, Or.inr (Or.inl rfl)⟩
      unfold handleJobStatusSwitch; rw [hsv]; simp [hinv]
    | assigned =>
      rw [hsv] at hinv
      refine Or.inl ⟨?_, Or.inl rfl⟩
      unfold handleJobStatusSwitch; rw [hsv]; simp [hinv]
    | canceled =>
      rw [hsv] at hinv
      refine Or.inl ⟨?_, Or.inr (Or.inr (Or.inl rfl))⟩
      unfold handleJobStatusSwitch; rw [hsv]; simp [hinv]
    | lost =>
      rw [hsv] at hinv
      refine Or.inl ⟨?_, Or.inr (Or.inr (Or.inr (Or.inl rfl)))⟩
      unfold handleJobStatusSwitch; rw [hsv]; simp [hinv]
    | running =>
      rw [hsv] at hinv
      by_cases hso : r.stdout = "" ∧ r.stderr = ""
      · refine Or.inl ⟨?_, Or.inr (Or.inr (Or.inr (Or.inr ⟨rfl, hso⟩)))⟩
        have hcond : ¬ (r.stdout ≠ "" ∨ r.stderr ≠ "") := by simp [hso.1, hso.2]
        have herr := updateStatus_invalid g.jobs r.jobId j .running hj hinv
        unfold handleJobStatusSwitch; rw [hsv]
        simp only [if_neg hcond, herr]
      · refine Or.inr ⟨?_, Or.inr (Or.inr ⟨rfl, hso⟩)⟩
        have hcond : r.stdout ≠ "" ∨ r.stderr ≠ "" := by
          rcases not_and_or.mp hso with h | h
          · exact Or.inl h
          · exact Or.inr h
        have herr := updateStatus_invalid _ r.jobId _ .running hjobs1
          (by rw [hstat]; exact hinv)
        unfold handleJobStatusSwitch; rw [hsv]
        simp only [if_pos hcond, herr]
    | succeeded =>
      rw [hsv] at hinv
      have hf : j.status.canTransitionTo .failed = false := by
        revert hinv hnt; cases j.status <;> decide
      have herrF := updateStatus_invalid _ r.jobId _ .failed hjobs1
        (by rw [hstat]; exact hf)
      have herrS := updateStatus_invalid _ r.jobId _ .succeeded hjobs1
        (by rw [hstat]; exact hinv)
      refine Or.inr ⟨?_, Or.inl rfl⟩
      unfold handleJobStatusSwitch; rw [hsv]
      by_cases hmis : r.outputKey ≠ "" ∧ r.outputKey ≠ j.outputKey
      · simp only [if_pos hmis, herrF]
      · simp only [if_neg hmis, herrS]
    | failed =>
      rw [hsv] at hinv
      have herrF := updateStatus_invalid _ r.jobId _ .failed hjobs1
        (by rw [hstat]; exact hinv)
      refine Or.inr ⟨?_, Or.inr (Or.inl rfl)⟩
      unfold handleJobStatusSwitch; rw [hsv]
      simp only [herrF]
  rcases hcase with ⟨hEq, hwhich⟩ | ⟨hEq, hwhich⟩
  · refine ⟨by rw [hEq], fun x _hx => by rw [hEq], by rw [hEq, hj]; rfl,
      by rw [hEq, hj]; rfl, by rw [hEq, hj]; rfl, ?_, ?_, fun _ => hEq, fun _ => hEq⟩
    · intro hant
      exfalso
      rcases hant with h | h <;> rcases hwhich with h' | h' | h' | h' | ⟨h', _⟩ <;>
        rw [h] at h' <;> exact absurd h' (by decide)
    · intro hant
      exfalso
      rcases hwhich with h' | h' | h' | h' | ⟨_, h2⟩
      · rw [hant.1] at h'; exact absurd h' (by decide)
      · rw [hant.1] at h'; exact absurd h' (by decide)
      · rw [hant.1] at h'; exact absurd h' (by decide)
      · rw [hant.1] at h'; exact absurd h' (by decide)
      · exact hant.2 h2
  · have hrj : (handleJobStatus g a a r).jobs r.jobId =
        some { j with stdout := r.stdout, stderr := r.stderr } := by
      rw [hEq]; exact hjobs1
    refine ⟨by rw [hEq], ?_, by rw [hrj]; rfl, by rw [hrj]; rfl, by rw [hrj]; rfl,
      fun _ => hrj, fun _ => hrj, ?_, ?_⟩
    · intro x hx
      rw [hEq]
      simp [updateStdoutStderr, hx]
    · intro hant
      exfalso
      rcases hwhich with h' | h' | ⟨_, h2⟩
      · rw [hant.1] at h'; exact absurd h' (by decide)
      · rw [hant.1] at h'; exact absurd h' (by decide)
      · exact h2 hant.2
    · intro hant
      exfalso
      rcases hant with h | h | h | h <;> rcases hwhich with h' | h' | ⟨h', _⟩ <;>
        rw [h] at h' <;> exact absurd h' (by decide)

/-- An ASSIGNED job for the C5 witness. -/
def jobC5w : Job :=
  { jobC5 with
    jobID := "J5w"
    assignedAgentID := "A5w"
    outputKey := "jobs/J5w/1/output.bin" }

/-- Gateway state for the C5 witness. -/
def gC5w : GState :=
  { jobs := fun x => if x = "J5w" then some jobC5w else none,
    agents := fun x => if x = "A5w"
                       then some { paused := false, runningJobs := 1, maxConcurrency := 1 }
                       else none }

/-- Conflicting SUCCEEDED report for the C5 witness. -/
def rC5w : JobStatusMsg :=
  { jobId := "J5w", attemptId := 1, status := 3, message := "",
    outputKey := "", stdout := "w", stderr := "" }

/-- Witness for the amended C5: the conflicting SUCCEEDED report on the
ASSIGNED job `J5w` leaves the status ASSIGNED. -/
theorem conflicting_report_behavior_witness :
    ((handleJobStatus gC5w "A5w" "A5w" rC5w).jobs "J5w").map Job.status =
      some jobC5w.status :=
  (conflicting_report_behavior gC5w "A5w" rC5w jobC5w
      (by decide) (by decide) rfl rfl rfl (by decide) (by decide)).2.2.1

/-! ### The dispatcher: `Gateway.handleRequestJob` (`gateway.go` lines 229-426) -/

/-- The dequeued id resolves to a PENDING row of the store. -/
def isPendingEntry (store : JobMap) (id : String) : Bool :=
  match store id with
  | some j => j.status = .pending
  | none => false

/-- The dequeue-and-validate loop of `handleRequestJob` (`gateway.go` lines
267-302, `maxDequeueAttempts = 5`): each iteration dequeues (an empty queue
ends the handler), skips ids whose row is missing (`Get` failed) or not
PENDING, and stops at the first PENDING row.  The queue is a FIFO list whose
head is the next element dequeued.  Returns the selected `(job_id, row)` (or
`none`, which also covers the `j == nil || j.Status != PENDING` guard after
the loop) together with the remaining queue. -/
def findPendingAux (store : JobMap) : Nat → List String → Option (String × Job) × List String
  | 0, q => (none, q)
  | _ + 1, [] => (none, [])
  | n + 1, id :: q =>
    match store id with
    | none => findPendingAux store n q
    | some j => if j.status = .pending then (some (id, j), q) else findPendingAux store n q

/-- The number of entries `findPendingAux` dequeues. -/
def dequeueCount (store : JobMap) : Nat → List String → Nat
  | 0, _ => 0
  | _ + 1, [] => 0
  | n + 1, id :: q =>
    match store id with
    | none => dequeueCount store n q + 1
    | some j => if j.status = .pending then 1 else dequeueCount store n q + 1

/-- Failure injection for the fallible external steps of the dispatch commit
sequence: signed-URL generation (input / output), the assignment write, the
status write, the output write, and marshaling `JobAssigned`.  Compensating
writes of the rollback paths are not injected (they are modelled by the pure
store semantics, in which only transition validation can reject a write). -/
structure DispatchScenario where
  failInputURL : Bool
  failOutputURL : Bool
  failAssign : Bool
  failStatusWrite : Bool
  failOutputWrite : Bool
  failMarshal : Bool
deriving DecidableEq, Repr

/-- The result of one `handleRequestJob` call: the gateway state, the queue,
and the job id carried by the `JobAssigned` frame if one was sent. -/
structure DispatchOutcome where
  state : GState
  queue : List String
  sent : Option String

/-- `UpdateStatus` with its error discarded — Go's
`_ = g.jobStore.UpdateStatus(...)` in the rollback paths: the write happens
only when the store's transition validation accepts it. -/
def updateStatusIgnore (m : JobMap) (jobID : String) (t : Status) : JobMap :=
  match updateStatus m jobID t with
  | .ok m' => m'
  | .error _ => m

/-- `Gateway.handleRequestJob` from `gateway.go` lines 229-426, step for
step: agent-id consistency, admission (registered, not paused, capacity),
the dequeue-and-validate loop, attempt-id normalisation (Fix 1), output-path
generation, signed-URL generation and the compensating commit sequence
(Fix 3), and the capacity increment (Fix 5).  `leaseID` stands for the UUID
the handler generates. -/
def handleRequestJob (sc : DispatchScenario) (g : GState) (queue : List String)
    (envAgentID reqAgentID leaseID : String) : DispatchOutcome :=
  if reqAgentID ≠ "" ∧ reqAgentID ≠ envAgentID then ⟨g, queue, none⟩
  else if envAgentID = "" then ⟨g, queue, none⟩
  else
    match g.agents envAgentID with
    | none => ⟨g, queue, none⟩
    | some info =>
      if info.paused then ⟨g, queue, none⟩
      else if info.maxConcurrency ≤ info.runningJobs then ⟨g, queue, none⟩
      else
        match findPendingAux g.jobs 5 queue with
        | (none, q') => ⟨g, q', none⟩
        | (some (jobID, j), q') =>
          -- Fix 1: ensure attempt_id is 1 in the store before assignment
          let jobs0 := if j.attemptID < 1 then updateAttemptID g.jobs jobID 1 else g.jobs
          let attemptID : Int := if j.attemptID < 1 then 1 else j.attemptID
          -- output path generation
          let outputPfx := "jobs/" ++ jobID ++ "/" ++ toString attemptID ++ "/"
          let ext0 := if j.outputExtension = "" then "bin" else j.outputExtension
          let ext := if ext0.startsWith "." then ext0.drop 1 else ext0
          let outputKey := outputPfx ++ "output." ++ ext
          -- Fix 3: presigned URLs; on failure re-enqueue and return
          if sc.failInputURL then ⟨{ g with jobs := jobs0 }, q' ++ [jobID], none⟩
          else if sc.failOutputURL then ⟨{ g with jobs := jobs0 }, q' ++ [jobID], none⟩
          -- Fix 3: assignment write; on failure re-enqueue and return
          else if sc.failAssign then ⟨{ g with jobs := jobs0 }, q' ++ [jobID], none⟩
          else
            let jobs1 := updateAssignment jobs0 jobID envAgentID leaseID
            if sc.failStatusWrite then
              -- revert assignment and re-enqueue
              ⟨{ g with jobs := updateAssignment jobs1 jobID "" "" }, q' ++ [jobID], none⟩
            else
              match updateStatus jobs1 jobID .assigned with
              | .error _ =>
                ⟨{ g with jobs := updateAssignment jobs1 jobID "" "" }, q' ++ [jobID], none⟩
              | .ok jobs2 =>
                if sc.failOutputWrite then
                  -- rollback: status back to PENDING (error ignored), revert
                  -- assignment, re-enqueue
                  ⟨{ g with jobs :=
                       updateAssignment (updateStatusIgnore jobs2 jobID .pending) jobID "" "" },
                   q' ++ [jobID], none⟩
                else
                  let jobs3 := updateOutput jobs2 jobID outputKey outputPfx
                  if sc.failMarshal then
                    ⟨{ g with jobs :=
                         updateAssignment (updateStatusIgnore jobs3 jobID .pending) jobID "" "" },
                     q' ++ [jobID], none⟩
                  else
                    ⟨{ jobs := jobs3,
                       agents := updateHeartbeat g.agents envAgentID info.paused
                         (info.runningJobs + 1) },
                     q', some jobID⟩

/-- The PENDING job of the C2 failing input. -/
def jobC2 : Job :=
  { jobID := "J2", status := .pending, inputBucket := "b", inputKey := "in/a.jpg",
    outputBucket := "b", outputKey := "", outputPrefix := "jobs/J2/1/",
    outputExtension := "bin", attemptID := 1, assignedAgentID := "", leaseID := "",
    command := "c", stdout := "", stderr := "", message := "" }

/-- Gateway state of the C2 failing input: `J2` PENDING, agent `A2` with
free capacity. -/
def gC2 : GState :=
  { jobs := fun x => if x = "J2" then some jobC2 else none,
    agents := fun x => if x = "A2"
                       then some { paused := false, runningJobs := 0, maxConcurrency := 1 }
                       else none }

/-- The C2 failure scenario: only the output write
(`store.UpdateOutput`) fails. -/
def scOutputWriteFail : DispatchScenario :=
  { failInputURL := false, failOutputURL := false, failAssign := false,
    failStatusWrite := false, failOutputWrite := true, failMarshal := false }

/-- C2 failing input, evaluated: when `UpdateOutput` fails after the job was
moved to ASSIGNED, the rollback's `UpdateStatus(job_id, PENDING)` is rejected
by the store's transition validation (ASSIGNED → PENDING is not a legal
edge), so the handler sends no `JobAssigned` and re-enqueues the job — but
leaves it ASSIGNED (with an empty `assigned_agent_id`), not PENDING as the
claim and the code's own "reverting to PENDING" log line say. -/
theorem dispatch_output_write_failure_leaves_assigned :
    (handleRequestJob scOutputWriteFail gC2 ["J2"] "A2" "A2" "L").sent = none ∧
    (handleRequestJob scOutputWriteFail gC2 ["J2"] "A2" "A2" "L").queue = ["J2"] ∧
    ((handleRequestJob scOutputWriteFail gC2 ["J2"] "A2" "A2" "L").state.jobs "J2").map
      Job.status = some .assigned ∧
    ((handleRequestJob scOutputWriteFail gC2 ["J2"] "A2" "A2" "L").state.jobs "J2").map
      Job.assignedAgentID = some "" ∧
    some Status.assigned ≠ some Status.pending := by
  refine ⟨by decide, by decide, by decide, by decide, by decide⟩

/-- The loop invariant of the dequeue-and-validate loop, for any fuel. -/
theorem findPendingAux_spec (store : JobMap) (n : Nat) :
    ∀ q : List String,
      dequeueCount store n q ≤ n ∧
      (findPendingAux store n q).2 = q.drop (dequeueCount store n q) ∧
      (findPendingAux store n q).1 =
        ((q.take n).find? (fun id => isPendingEntry store id)).bind
          (fun id => (store id).map (fun jb => (id, jb))) := by
  induction n with
  | zero => intro q; refine ⟨Nat.le_refl 0, ?_, ?_⟩ <;> simp [findPendingAux, dequeueCount]
  | succ n IH =>
    intro q
    cases q with
    | nil =>
      refine ⟨?_, ?_, ?_⟩ <;> simp [findPendingAux, dequeueCount]
    | cons id q =>
      rcases hsid : store id with _ | j
      · have hpe : isPendingEntry store id = false := by simp [isPendingEntry, hsid]
        have hfind : (id :: List.take n q).find? (fun i => isPendingEntry store i) =
            (List.take n q).find? (fun i => isPendingEntry store i) :=
          List.find?_cons_of_neg _ (by simp [hpe])
        have hcnt : dequeueCount store (n + 1) (id :: q) = dequeueCount store n q + 1 := by
          simp only [dequeueCount, hsid]
        have hfp : findPendingAux store (n + 1) (id :: q) = findPendingAux store n q := by
          simp only [findPendingAux, hsid]
        refine ⟨?_, ?_, ?_⟩
        · rw [hcnt]; exact Nat.succ_le_succ (IH q).1
        · rw [hcnt, hfp, List.drop_succ_cons]; exact (IH q).2.1
        · rw [hfp, List.take_succ_cons, hfind]; exact (IH q).2.2
      · by_cases hp : j.status = .pending
        · have hpe : isPendingEntry store id = true := by simp [isPendingEntry, hsid, hp]
          have hfind : (id :: List.take n q).find? (fun i => isPendingEntry store i) =
              some id :=
            List.find?_cons_of_pos _ (by simp [hpe])
          have hcnt : dequeueCount store (n + 1) (id :: q) = 1 := by
            simp only [dequeueCount, hsid]; rw [if_pos hp]
          have hfp : findPendingAux store (n + 1) (id :: q) = (some (id, j), q) := by
            simp only [findPendingAux, hsid]; rw [if_pos hp]
          refine ⟨?_, ?_, ?_⟩
          · rw [hcnt]; omega
          · rw [hcnt, hfp]; simp
          · rw [hfp, List.take_succ_cons, hfind]; simp [hsid]
        · have hpe : isPendingEntry store id = false := by simp [isPendingEntry, hsid, hp]
          have hfind : (id :: List.take n q).find? (fun i => isPendingEntry store i) =
              (List.take n q).find? (fun i => isPendingEntry store i) :=
            List.find?_cons_of_neg _ (by simp [hpe])
          have hcnt : dequeueCount store (n + 1) (id :: q) = dequeueCount store n q + 1 := by
            simp only [dequeueCount, hsid]; rw [if_neg hp]
          have hfp : findPendingAux store (n + 1) (id :: q) = findPendingAux store n q := by
            simp only [findPendingAux, hsid]; rw [if_neg hp]
          refine ⟨?_, ?_, ?_⟩
          · rw [hcnt]; exact Nat.succ_le_succ (IH q).1
          · rw [hcnt, hfp, List.drop_succ_cons]; exact (IH q).2.1
          · rw [hfp, List.take_succ_cons, hfind]; exact (IH q).2.2

/-- C7: per `RequestJob` the dequeue-and-validate loop dequeues at most 5
entries; the remaining queue is exactly the original minus the dequeued
prefix (skipped ids are not re-enqueued); an empty queue selects nothing (the
handler returns with no reply); the selection is the first of the at most 5
dequeued ids whose stored row is PENDING; and if none of them is PENDING
nothing is selected and the handler assigns nothing. -/
theorem dispatch_dequeue_loop_spec (g : GState) (q : List String) :
    dequeueCount g.jobs 5 q ≤ 5 ∧
    (findPendingAux g.jobs 5 q).2 = q.drop (dequeueCount g.jobs 5 q) ∧
    (q = [] → (findPendingAux g.jobs 5 q).1 = none) ∧
    (findPendingAux g.jobs 5 q).1 =
      ((q.take 5).find? (fun id => isPendingEntry g.jobs id)).bind
        (fun id => (g.jobs id).map (fun jb => (id, jb))) ∧
    ((q.take 5).find? (fun id => isPendingEntry g.jobs id) = none →
      ∀ (sc : DispatchScenario) (envA reqA leaseID : String),
        (handleRequestJob sc g q envA reqA leaseID).sent = none) := by
  obtain ⟨h1, h2, h3⟩ := findPendingAux_spec g.jobs 5 q
  have hnone : ∀ hfind : (q.take 5).find? (fun id => isPendingEntry g.jobs id) = none,
      (findPendingAux g.jobs 5 q).1 = none := by
    intro hfind; rw [h3, hfind]; rfl
  refine ⟨h1, h2, ?_, h3, ?_⟩
  · intro hq; subst hq; rfl
  · intro hfind sc envA reqA leaseID
    have hsel := hnone hfind
    rcases hpair : findPendingAux g.jobs 5 q with ⟨sel, q'⟩
    rw [hpair] at hsel
    simp only at hsel
    subst hsel
    unfold handleRequestJob
    by_cases hc1 : reqA ≠ "" ∧ reqA ≠ envA
    · simp [hc1]
    · by_cases hc2 : envA = ""
      · simp [hc1, hc2]
      · rcases hag : g.agents envA with _ | info
        · simp [hc1, hc2, hag]
        · simp only [if_neg hc1, if_neg hc2, hag]
          by_cases hp : info.paused
          · simp [hp]
          · by_cases hcap : info.maxConcurrency ≤ info.runningJobs
            · simp [hp, hcap]
            · simp [hp, hcap, hpair]

/-- An ASSIGNED (hence stale-in-queue) job for the C7 witness. -/
def jobC7 : Job :=
  { jobID := "J7", status := .assigned, inputBucket := "", inputKey := "",
    outputBucket := "b", outputKey := "jobs/J7/1/output.bin", outputPrefix := "jobs/J7/1/",
    outputExtension := "bin", attemptID := 1, assignedAgentID := "A7", leaseID := "L7",
    command := "c", stdout := "", stderr := "", message := "" }

/-- Gateway state for the C7 witness. -/
def gC7 : GState :=
  { jobs := fun x => if x = "J7" then some jobC7 else none,
    agents := fun x => if x = "A7"
                       then some { paused := false, runningJobs := 0, maxConcurrency := 1 }
                       else none }

/-- The all-steps-succeed scenario. -/
def scNoFail : DispatchScenario :=
  { failInputURL := false, failOutputURL := false, failAssign := false,
    failStatusWrite := false, failOutputWrite := false, failMarshal := false }

/-- Witness for C7 on a concrete queue holding one deleted id and one stale
(ASSIGNED) entry: both are skipped, not re-enqueued, nothing is selected and
the handler assigns nothing. -/
theorem dispatch_dequeue_loop_spec_witness :
    (findPendingAux gC7.jobs 5 ["Jmissing", "J7"]).2 = [] ∧
    (findPendingAux gC7.jobs 5 ["Jmissing", "J7"]).1 = none ∧
    (handleRequestJob scNoFail gC7 ["Jmissing", "J7"] "A7" "A7" "L").sent = none := by
  have h := dispatch_dequeue_loop_spec gC7 ["Jmissing", "J7"]
  refine ⟨?_, ?_, ?_⟩
  · rw [h.2.1]; decide
  · rw [h.2.2.2.1]; decide
  · exact h.2.2.2.2 (by decide) scNoFail "A7" "A7" "L"

/-! ### Agent pull-loop backoff (`client.go`) -/

/-- Minimum/initial backoff of `jobRequestLoop` (`client.go` line 1040-1042):
500 ms, in milliseconds. -/
def minBackoffMs : Nat := 500

/-- Backoff cap of `jobRequestLoop`: 30 s, in milliseconds. -/
def maxBackoffMs : Nat := 30000

/-- One iteration of the `time.After(backoff)` polling branch of
`jobRequestLoop` (`client.go` lines 1060-1076): if the agent cannot accept a
job the backoff doubles up to the cap; otherwise the code *resets the backoff
to the minimum before sending*, and on send failure doubles that reset
value. -/
def pollBackoffStep (b : Nat) (canAccept sendOk : Bool) : Nat :=
  if ¬ canAccept then min (b * 2) maxBackoffMs
  else
    let b1 := minBackoffMs
    if sendOk then b1 else min (b1 * 2) maxBackoffMs

/-- C9 failing input, evaluated: with backoff 2000 ms (reachable by two
cannot-accept doublings from 500 ms), a send failure yields 1000 ms — the
code resets to the 500 ms minimum *before* the send and then doubles — not
`min(2·2000, 30000) = 4000` as the claim's exponential-backoff reading (and
the code's own "Reset backoff on successful request" comment) dictate.  The
remaining conjuncts confirm the parts of the claim the code does satisfy:
reset on success, doubling and cap on cannot-accept. -/
theorem backoff_send_failure_not_doubled :
    pollBackoffStep 2000 true false = 1000 ∧
    pollBackoffStep 2000 true false ≠ min (2000 * 2) maxBackoffMs ∧
    pollBackoffStep 2000 true true = minBackoffMs ∧
    pollBackoffStep 500 false true = 1000 ∧
    pollBackoffStep 20000 false true = 30000 := by
  refine ⟨by decide, by decide, by decide, by decide, by decide⟩

end XIResource
